import Mathlib

/-!
Verification of the session-management core of the vue-oAuth2 repository
(`src/useAuth.ts`), as a shallow embedding.

Modelling conventions:
- Machine time (`Date.now()`) is an explicit `now : Int` parameter (milliseconds).
- Network calls are oracles: each operation takes the response of its one HTTP
  request as an `Except Unit _` argument (error means the request was rejected).
- The module-level mutable variables (`user`, `oAuth`, `refreshTokenTimeout`,
  `isRefreshingToken`, `failedRequestsQueue`) form the `AuthState` record;
  each operation is a pure function from state (plus inputs) to results.
- The timer variable models the pending scheduled callback: `some t` is an
  active one-shot timer due at absolute time `t`; `clearTimeout` makes it
  `none`. The source keeps a stale cleared handle around, but clearing a
  cleared handle is a no-op, so the active-timer option is the faithful view.
- Network requests issued by an operation are recorded in a trace
  (`List NetRequest`), and invocations of the configured
  `onRefreshTokenFailed` callback are counted.
- Where `setRefreshTokenTimeout` decides to refresh immediately instead of
  scheduling, the source fires `refreshToken()` without awaiting it; the
  embedding records that decision as an emitted `SchedulerAction` rather than
  recursing.
-/

/-- The `OAuth` token bundle stored in `oAuth.value` (interface `OAuth`). -/
structure OAuth where
  accessToken : String
  refreshToken : String
  tokenType : String
  expiresIn : Int
  expiresAt : Int
deriving DecidableEq, Repr

/-- Body of a successful token-endpoint response (`data` in `signIn` and
`refreshToken`). -/
structure TokenData where
  access_token : String
  refresh_token : String
  token_type : String
  expires_in : Int
deriving DecidableEq, Repr

/-- The `autoRefreshAccessToken` option: absent, a boolean, or an object
carrying `preFetchInMs`. -/
inductive AutoRefreshSetting where
  | undef : AutoRefreshSetting
  | bool (b : Bool) : AutoRefreshSetting
  | obj (preFetchInMs : Int) : AutoRefreshSetting
deriving DecidableEq, Repr

/-- The `endpoints.revoke` option: a literal URL or a function of the current
access token. -/
inductive RevokeEndpoint where
  | literal (url : String) : RevokeEndpoint
  | byToken (f : String → String) : RevokeEndpoint

/-- The `endpoints` option. -/
structure Endpoints where
  userInfo : String
  revoke : RevokeEndpoint

/-- The `Options` record passed to the composable. `extraParams` only merges
extra fields into outgoing token requests and is omitted; the optional
`onRefreshTokenFailed` callback is modelled by whether it is configured. -/
structure Options where
  clientId : String
  clientSecret : String
  baseURL : String
  endpoints : Endpoints
  autoRefreshAccessToken : AutoRefreshSetting
  hasOnRefreshTokenFailed : Bool

/-- Mirrors `shouldRefreshToken = autoRefreshAccessToken === true || typeof
autoRefreshAccessToken === 'object'`. -/
def shouldRefreshToken (o : Options) : Bool :=
  match o.autoRefreshAccessToken with
  | .bool true => true
  | .obj _ => true
  | _ => false

/-- Mirrors `refreshTokenTimeoutInMs = typeof autoRefreshAccessToken ===
'object' ? autoRefreshAccessToken.preFetchInMs : 60 * 1000`. -/
def refreshTokenTimeoutInMs (o : Options) : Int :=
  match o.autoRefreshAccessToken with
  | .obj p => p
  | _ => 60 * 1000

/-- The part of a failed request configuration (`err.config`) the interceptor
uses: the URL, plus a tag standing for the rest of the original
configuration so distinct requests stay distinguishable. -/
structure RequestConfig where
  url : Option String
  tag : Nat
deriving DecidableEq, Repr

/-- A network request issued by the session manager, as recorded in traces. -/
inductive NetRequest where
  | tokenPassword (clientId clientSecret username password : String) : NetRequest
  | tokenRefresh (clientId clientSecret tok : String) : NetRequest
  | userInfoGet (url : String) : NetRequest
  | revokePost (url : String) : NetRequest
  | replay (cfg : Option RequestConfig) (authorization : String) : NetRequest
deriving DecidableEq, Repr

/-- The module-level mutable state of `useAuth.ts`: the reactive `user` and
`oAuth` refs and the three plain variables. The user object is modelled as a
string. -/
structure AuthState where
  user : Option String
  oAuth : Option OAuth
  refreshTokenTimeout : Option Int
  isRefreshingToken : Bool
  failedRequestsQueue : List (Option RequestConfig)
deriving DecidableEq, Repr

/-- Mirrors `isAuthenticated = computed(() => user.value !== null)`. -/
def isAuthenticated (s : AuthState) : Bool :=
  s.user.isSome

/-- Errors thrown by the session manager. `notLoggedIn` is
`new Error('Not logged in')`; `setTimeoutWhenNull` is the guard throw inside
`setRefreshTokenTimeout`; `transport` is a rejected network call propagated to
the caller. -/
inductive AuthError where
  | notLoggedIn : AuthError
  | setTimeoutWhenNull : AuthError
  | transport : AuthError
deriving DecidableEq, Repr

/-- Decision taken by `setRefreshTokenTimeout`: schedule a one-shot
`refreshToken()` after the computed delay, or fire `refreshToken()` right
away. -/
inductive SchedulerAction where
  | scheduleAfter (delayMs : Int) : SchedulerAction
  | refreshNow : SchedulerAction
deriving DecidableEq, Repr

/-- Mirrors `setRefreshTokenTimeout`: clear any previous timer, throw if
`oAuth` is null, compute `timeoutInMs = expiresAt - Date.now() -
refreshTokenTimeoutInMs`, then either arm the timer or refresh immediately. -/
def setRefreshTokenTimeout (o : Options) (now : Int) (s : AuthState) :
    Except AuthError (AuthState × SchedulerAction) :=
  let s1 : AuthState := { s with refreshTokenTimeout := none }
  match s.oAuth with
  | none => .error .setTimeoutWhenNull
  | some b =>
    let timeoutInMs := b.expiresAt - now - refreshTokenTimeoutInMs o
    if timeoutInMs > 0 then
      .ok ({ s1 with refreshTokenTimeout := some (now + timeoutInMs) },
        .scheduleAfter timeoutInMs)
    else
      .ok (s1, .refreshNow)

/-- The token-bundle literal both `signIn` and `refreshToken` assign on
success: every field overwritten from the response, with
`expiresAt: Date.now() + data.expires_in * 1000`. -/
def bundleFromResponse (now : Int) (d : TokenData) : OAuth :=
  { accessToken := d.access_token
    refreshToken := d.refresh_token
    tokenType := d.token_type
    expiresIn := d.expires_in
    expiresAt := now + d.expires_in * 1000 }

/-- Result of running one session-manager operation: the value or error it
settles with, the state afterwards, the network requests it issued, how often
it invoked `onRefreshTokenFailed`, and any scheduler decision it emitted. -/
structure OpResult (α : Type) where
  result : Except AuthError α
  state : AuthState
  requests : List NetRequest
  callbackCalls : Nat
  schedulerAction : Option SchedulerAction
deriving Repr

/-- Mirrors `signIn`: POST the password grant; on success store the new
bundle and, when auto-refresh is on, run the scheduler; on rejection
propagate the error with no state change. -/
def signIn (o : Options) (now : Int) (email password : String)
    (response : Except Unit TokenData) (s : AuthState) : OpResult Unit :=
  let req := NetRequest.tokenPassword o.clientId o.clientSecret email password
  match response with
  | .error _ =>
    { result := .error .transport, state := s, requests := [req],
      callbackCalls := 0, schedulerAction := none }
  | .ok d =>
    let s1 : AuthState := { s with oAuth := some (bundleFromResponse now d) }
    if shouldRefreshToken o then
      match setRefreshTokenTimeout o now s1 with
      | .ok (s2, act) =>
        { result := .ok (), state := s2, requests := [req],
          callbackCalls := 0, schedulerAction := some act }
      | .error e =>
        { result := .error e, state := s1, requests := [req],
          callbackCalls := 0, schedulerAction := none }
    else
      { result := .ok (), state := s1, requests := [req],
        callbackCalls := 0, schedulerAction := none }

/-- The body of `refreshToken` after its awaited network call settles
(the `try` block from the assignment on, and the `catch` clause), run on the
state current at resume time. On success the bundle is replaced and the
scheduler rerun; on rejection the catch sets `oAuth` to null and calls
`onRefreshTokenFailed?.()` once, and the promise still resolves. -/
def refreshTokenResume (o : Options) (now : Int)
    (response : Except Unit TokenData) (s : AuthState) : OpResult Unit :=
  match response with
  | .ok d =>
    let s1 : AuthState := { s with oAuth := some (bundleFromResponse now d) }
    if shouldRefreshToken o then
      match setRefreshTokenTimeout o now s1 with
      | .ok (s2, act) =>
        { result := .ok (), state := s2, requests := [],
          callbackCalls := 0, schedulerAction := some act }
      | .error e =>
        { result := .error e, state := s1, requests := [],
          callbackCalls := 0, schedulerAction := none }
    else
      { result := .ok (), state := s1, requests := [],
        callbackCalls := 0, schedulerAction := none }
  | .error _ =>
    { result := .ok (),
      state := { s with oAuth := none },
      requests := [],
      callbackCalls := if o.hasOnRefreshTokenFailed then 1 else 0,
      schedulerAction := none }

/-- Mirrors `refreshToken`: throw `Not logged in` when there is no bundle;
otherwise POST the refresh grant and continue with `refreshTokenResume`. -/
def refreshToken (o : Options) (now : Int)
    (response : Except Unit TokenData) (s : AuthState) : OpResult Unit :=
  match s.oAuth with
  | none =>
    { result := .error .notLoggedIn, state := s, requests := [],
      callbackCalls := 0, schedulerAction := none }
  | some b =>
    let r := refreshTokenResume o now response s
    { r with
      requests := NetRequest.tokenRefresh o.clientId o.clientSecret
        b.refreshToken :: r.requests }

/-- Mirrors `signOut`: set `oAuth` and `user` to null and clear any scheduled
refresh timer. A total function: it cannot throw. -/
def signOut (s : AuthState) : AuthState :=
  { s with oAuth := none, user := none, refreshTokenTimeout := none }

/-- Mirrors `revoke`: throw `Not logged in` when there is no bundle;
otherwise POST to the configured revoke endpoint (literal, or computed from
the current access token) and propagate its outcome. Local state is not
touched. -/
def revoke (o : Options) (response : Except Unit Unit) (s : AuthState) :
    OpResult Unit :=
  match s.oAuth with
  | none =>
    { result := .error .notLoggedIn, state := s, requests := [],
      callbackCalls := 0, schedulerAction := none }
  | some b =>
    let endpoint :=
      match o.endpoints.revoke with
      | .literal u => u
      | .byToken f => f b.accessToken
    { result := match response with
        | .ok _ => .ok ()
        | .error _ => .error .transport
      state := s
      requests := [NetRequest.revokePost endpoint]
      callbackCalls := 0
      schedulerAction := none }

/-- Mirrors `getUser`: throw `Not logged in` when there is no bundle;
otherwise GET the user-info endpoint, store the body in `user` and return
it. -/
def getUser (o : Options) (response : Except Unit String) (s : AuthState) :
    OpResult String :=
  match s.oAuth with
  | none =>
    { result := .error .notLoggedIn, state := s, requests := [],
      callbackCalls := 0, schedulerAction := none }
  | some _ =>
    match response with
    | .error _ =>
      { result := .error .transport, state := s,
        requests := [NetRequest.userInfoGet o.endpoints.userInfo],
        callbackCalls := 0, schedulerAction := none }
    | .ok d =>
      { result := .ok d, state := { s with user := some d },
        requests := [NetRequest.userInfoGet o.endpoints.userInfo],
        callbackCalls := 0, schedulerAction := none }

/-- The part of a response error the interceptor inspects: whether it is an
axios error, `err.response?.status`, and `err.config`. -/
structure InterceptErr where
  isAxiosError : Bool
  status : Option Int
  cfg : Option RequestConfig
deriving DecidableEq, Repr

/-- The early-reject test of the interceptor error handler: not an axios
error, or `status !== 401 || oAuth.value === null || url === '/oauth/token'`
with `status = err.response?.status ?? null` and
`url = err.config?.url ?? null`. -/
def interceptorRejectsImmediately (err : InterceptErr) (s : AuthState) : Bool :=
  decide (err.isAxiosError = false
    ∨ err.status ≠ some 401
    ∨ s.oAuth = none
    ∨ err.cfg.bind RequestConfig.url = some "/oauth/token")

/-- How far the synchronous prefix of one interceptor invocation got:
rejected at the guard, enqueued while another refresh holds the flag, or
enqueued and took the flag (and will run the refresh). -/
inductive PreOutcome where
  | rejectImmediately : PreOutcome
  | queuedOnly : PreOutcome
  | willRefresh : PreOutcome
deriving DecidableEq, Repr

/-- The synchronous prefix of the interceptor error handler, up to the first
await: guard check, push of the replay closure (capturing `err.config`) onto
`failedRequestsQueue`, and the `isRefreshingToken` test-and-set. -/
def interceptPre (err : InterceptErr) (s : AuthState) : AuthState × PreOutcome :=
  if interceptorRejectsImmediately err s then
    (s, .rejectImmediately)
  else
    let s1 : AuthState :=
      { s with failedRequestsQueue := s.failedRequestsQueue ++ [err.cfg] }
    if s1.isRefreshingToken then
      (s1, .queuedOnly)
    else
      ({ s1 with isRefreshingToken := true }, .willRefresh)

/-- Result of the refresh-and-replay continuation of the interceptor. -/
structure RefreshPhaseResult where
  state : AuthState
  requests : List NetRequest
  callbackCalls : Nat
  schedulerAction : Option SchedulerAction
deriving Repr

/-- The replay-and-cleanup tail of the interceptor continuation, applied to
the completed refresh call: `await processQueue(oAuth.value.accessToken)`
replays every queued closure in order with a bearer header built from the
token current after the refresh; if the refresh threw, or `oAuth` is null so
reading `accessToken` throws, the `catch` swallows it and nothing is
replayed; then the queue and the flag are unconditionally reset. -/
def replayAndCleanup (r : OpResult Unit) : RefreshPhaseResult :=
  let replays : List NetRequest :=
    match r.result with
    | .error _ => []
    | .ok _ =>
      match r.state.oAuth with
      | none => []
      | some nb =>
        r.state.failedRequestsQueue.map
          (fun c => NetRequest.replay c ("Bearer " ++ nb.accessToken))
  { state := { r.state with failedRequestsQueue := [], isRefreshingToken := false }
    requests := r.requests ++ replays
    callbackCalls := r.callbackCalls
    schedulerAction := r.schedulerAction }

/-- The continuation of the interceptor after it took the flag: `try { await
refreshToken(); await processQueue(...) } catch {}` followed by the
unconditional queue and flag reset. -/
def interceptRefreshPhase (o : Options) (now : Int)
    (refreshResponse : Except Unit TokenData) (s : AuthState) :
    RefreshPhaseResult :=
  replayAndCleanup (refreshToken o now refreshResponse s)

/-- What the interceptor invocation settles the intercepted call with. The
type allows resolving with a replayed request, which the source never does:
every return path is `Promise.reject(err)`. -/
inductive HandlerResult where
  | resolvedWith (r : NetRequest) : HandlerResult
  | rejected (e : InterceptErr) : HandlerResult
deriving DecidableEq, Repr

/-- Full observable outcome of one interceptor invocation handled without
other arrivals in between. -/
structure InterceptOutcome where
  state : AuthState
  requests : List NetRequest
  callbackCalls : Nat
  schedulerAction : Option SchedulerAction
  result : HandlerResult
deriving Repr

/-- One complete, uninterrupted run of the interceptor error handler on a
single response error. -/
def handleResponseError (o : Options) (now : Int)
    (refreshResponse : Except Unit TokenData) (err : InterceptErr)
    (s : AuthState) : InterceptOutcome :=
  match interceptPre err s with
  | (s1, .rejectImmediately) =>
    { state := s1, requests := [], callbackCalls := 0,
      schedulerAction := none, result := .rejected err }
  | (s1, .queuedOnly) =>
    { state := s1, requests := [], callbackCalls := 0,
      schedulerAction := none, result := .rejected err }
  | (s1, .willRefresh) =>
    let p := interceptRefreshPhase o now refreshResponse s1
    { state := p.state, requests := p.requests,
      callbackCalls := p.callbackCalls,
      schedulerAction := p.schedulerAction, result := .rejected err }

/-- Run the refresh continuation only for the invocation that took the flag. -/
def refreshPhaseIf (b : Bool) (o : Options) (now : Int)
    (refreshResponse : Except Unit TokenData) (s : AuthState) :
    RefreshPhaseResult :=
  if b then
    interceptRefreshPhase o now refreshResponse s
  else
    { state := s, requests := [], callbackCalls := 0, schedulerAction := none }

/-- Observable outcome of two interceptor invocations whose arrivals are
back to back. -/
structure TwoResult where
  state : AuthState
  requests : List NetRequest
  preA : PreOutcome
  preB : PreOutcome
  resultA : HandlerResult
  resultB : HandlerResult
deriving Repr

/-- Two response errors handled by the interceptor, the second arriving
before the first finishes. Under the single-threaded event loop the handler
for A runs synchronously up to its first await, then the handler for B runs
its synchronous prefix, then each invocation that took the flag resumes its
refresh continuation. Both intercepted calls settle by rejection. -/
def handleTwo401s (o : Options) (now : Int)
    (refreshResponse : Except Unit TokenData) (errA errB : InterceptErr)
    (s : AuthState) : TwoResult :=
  let a := interceptPre errA s
  let b := interceptPre errB a.1
  let phA := refreshPhaseIf (a.2 == .willRefresh) o now refreshResponse b.1
  let phB := refreshPhaseIf (b.2 == .willRefresh) o now refreshResponse phA.state
  { state := phB.state
    requests := phA.requests ++ phB.requests
    preA := a.2
    preB := b.2
    resultA := .rejected errA
    resultB := .rejected errB }

/-- Number of refresh-grant requests in a trace. -/
def countRefreshRequests (l : List NetRequest) : Nat :=
  (l.filter (fun r =>
    match r with
    | .tokenRefresh _ _ _ => true
    | _ => false)).length

/-! Concrete instances used by counterexamples and witnesses. -/

/-- A concrete options record. -/
def optsEx : Options :=
  { clientId := "id"
    clientSecret := "secret"
    baseURL := "https://api.example.test"
    endpoints := { userInfo := "/users/me", revoke := .literal "/oauth/revoke" }
    autoRefreshAccessToken := .undef
    hasOnRefreshTokenFailed := true }

/-- The state at first load with nothing persisted. -/
def initialState : AuthState :=
  { user := none, oAuth := none, refreshTokenTimeout := none,
    isRefreshingToken := false, failedRequestsQueue := [] }

/-- A concrete successful token-endpoint response body. -/
def tokenDataEx : TokenData :=
  { access_token := "AT1", refresh_token := "RT1",
    token_type := "Bearer", expires_in := 3600 }

/-- A state in which both a user and a bundle are loaded. -/
def authedStateEx : AuthState :=
  { user := some "alice"
    oAuth := some (bundleFromResponse 0 tokenDataEx)
    refreshTokenTimeout := none
    isRefreshingToken := false
    failedRequestsQueue := [] }

/-- A state holding a bundle that expires 100 s after time zero, with a
previously armed timer. -/
def freshStateEx : AuthState :=
  { user := some "alice"
    oAuth := some (bundleFromResponse 0 { tokenDataEx with expires_in := 100 })
    refreshTokenTimeout := some 999
    isRefreshingToken := false
    failedRequestsQueue := [] }

/-- A concrete 401 error from a protected endpoint. -/
def errAEx : InterceptErr :=
  { isAxiosError := true, status := some 401,
    cfg := some { url := some "/api/a", tag := 1 } }

/-- A second concrete 401 error from another protected endpoint. -/
def errBEx : InterceptErr :=
  { isAxiosError := true, status := some 401,
    cfg := some { url := some "/api/b", tag := 2 } }

/-! Helper lemmas shared by several proofs. -/

/-- A successful scheduler run only touches the timer field. -/
theorem setRefreshTokenTimeout_frame (o : Options) (now : Int)
    (s s2 : AuthState) (act : SchedulerAction)
    (h : setRefreshTokenTimeout o now s = .ok (s2, act)) :
    s2.user = s.user ∧ s2.oAuth = s.oAuth
      ∧ s2.isRefreshingToken = s.isRefreshingToken
      ∧ s2.failedRequestsQueue = s.failedRequestsQueue := by
  cases ho : s.oAuth with
  | none =>
    simp [setRefreshTokenTimeout, ho] at h
  | some b =>
    simp only [setRefreshTokenTimeout, ho] at h
    split at h <;>
      (simp only [Except.ok.injEq, Prod.mk.injEq] at h
       obtain ⟨h1, _⟩ := h
       subst h1
       simp [ho])

/-- The scheduler cannot throw when the bundle is present. -/
theorem setRefreshTokenTimeout_some_not_error (o : Options) (now : Int)
    (s : AuthState) (b : OAuth) (e : AuthError) (hb : s.oAuth = some b)
    (h : setRefreshTokenTimeout o now s = .error e) : False := by
  simp only [setRefreshTokenTimeout, hb] at h
  split at h <;> simp at h

/-- State after a successful `signIn`: the bundle is replaced by the one
built from the response; the user, flag and queue are untouched. -/
theorem signIn_ok_state (o : Options) (now : Int) (email pw : String)
    (d : TokenData) (s : AuthState) :
    (signIn o now email pw (.ok d) s).state.user = s.user
      ∧ (signIn o now email pw (.ok d) s).state.oAuth
          = some (bundleFromResponse now d) := by
  unfold signIn
  cases hs : shouldRefreshToken o
  · simp
  · simp only [if_true]
    cases hset : setRefreshTokenTimeout o now
        { s with oAuth := some (bundleFromResponse now d) } with
    | ok p =>
      obtain ⟨s2, act⟩ := p
      obtain ⟨h1, h2, _, _⟩ := setRefreshTokenTimeout_frame o now _ s2 act hset
      simp [hset, h1, h2]
    | error e =>
      exact absurd hset
        (by
          intro hc
          exact setRefreshTokenTimeout_some_not_error o now _
            (bundleFromResponse now d) e rfl hc)

/-- State after a successfully resumed `refreshToken`: the bundle is replaced
by the one built from the response; the user, flag and queue are untouched;
the call resolves with no callback invocation. -/
theorem refreshTokenResume_ok_state (o : Options) (now : Int) (d : TokenData)
    (s : AuthState) :
    (refreshTokenResume o now (.ok d) s).state.user = s.user
      ∧ (refreshTokenResume o now (.ok d) s).state.oAuth
          = some (bundleFromResponse now d)
      ∧ (refreshTokenResume o now (.ok d) s).state.isRefreshingToken
          = s.isRefreshingToken
      ∧ (refreshTokenResume o now (.ok d) s).state.failedRequestsQueue
          = s.failedRequestsQueue
      ∧ (refreshTokenResume o now (.ok d) s).result = .ok ()
      ∧ (refreshTokenResume o now (.ok d) s).requests = []
      ∧ (refreshTokenResume o now (.ok d) s).callbackCalls = 0 := by
  unfold refreshTokenResume
  cases hs : shouldRefreshToken o
  · simp
  · simp only [if_true]
    cases hset : setRefreshTokenTimeout o now
        { s with oAuth := some (bundleFromResponse now d) } with
    | ok p =>
      obtain ⟨s2, act⟩ := p
      obtain ⟨h1, h2, h3, h4⟩ := setRefreshTokenTimeout_frame o now _ s2 act hset
      simp [hset, h1, h2, h3, h4]
    | error e =>
      exact absurd hset
        (by
          intro hc
          exact setRefreshTokenTimeout_some_not_error o now _
            (bundleFromResponse now d) e rfl hc)

/-! Claim C1. -/

/-- C1 as stated is false: after a successful `signIn` from the initial
state the token bundle is present, yet `isAuthenticated` is `false`, because
`isAuthenticated` is derived from `user`, which `signIn` does not set. -/
theorem C1_counterexample :
    ((signIn optsEx 0 "a@b.test" "pw" (.ok tokenDataEx) initialState).state.oAuth).isSome = true
      ∧ isAuthenticated (signIn optsEx 0 "a@b.test" "pw" (.ok tokenDataEx) initialState).state
          = false := by
  constructor
  · rfl
  · rfl

/-- C1 amended: a successful `signIn` makes the token bundle present, but
`isAuthenticated` is derived as the user being present, so it remains false
when no user is loaded and becomes true only once `getUser` succeeds. -/
theorem C1_signIn_isAuthenticated (o : Options) (now : Int)
    (email pw u : String) (d : TokenData) (s : AuthState)
    (h : s.user = none) :
    ((signIn o now email pw (.ok d) s).state.oAuth).isSome = true
      ∧ isAuthenticated (signIn o now email pw (.ok d) s).state = false
      ∧ isAuthenticated
          (getUser o (.ok u) (signIn o now email pw (.ok d) s).state).state = true := by
  obtain ⟨h1, h2⟩ := signIn_ok_state o now email pw d s
  refine ⟨by rw [h2]; rfl, ?_, ?_⟩
  · unfold isAuthenticated
    rw [h1, h]
    rfl
  · unfold getUser isAuthenticated
    simp only [h2]
    rfl

/-- Witness for C1 at concrete inputs. -/
theorem C1_signIn_isAuthenticated_witness :
    ((signIn optsEx 5 "a@b.test" "pw" (.ok tokenDataEx) initialState).state.oAuth).isSome = true
      ∧ isAuthenticated (signIn optsEx 5 "a@b.test" "pw" (.ok tokenDataEx) initialState).state
          = false
      ∧ isAuthenticated
          (getUser optsEx (.ok "alice")
            (signIn optsEx 5 "a@b.test" "pw" (.ok tokenDataEx) initialState).state).state
          = true :=
  C1_signIn_isAuthenticated optsEx 5 "a@b.test" "pw" "alice" tokenDataEx initialState rfl

/-! Claim C2. -/

/-- C2 as stated is false: on a rejected refresh grant the token bundle is
cleared and the callback fires once, but the user is not cleared, so
`isAuthenticated` stays true rather than transitioning to false. -/
theorem C2_counterexample :
    (refreshToken optsEx 1000 (.error ()) authedStateEx).state.oAuth = none
      ∧ (refreshToken optsEx 1000 (.error ()) authedStateEx).callbackCalls = 1
      ∧ (refreshToken optsEx 1000 (.error ()) authedStateEx).state.user = some "alice"
      ∧ isAuthenticated (refreshToken optsEx 1000 (.error ()) authedStateEx).state = true := by
  refine ⟨rfl, rfl, rfl, rfl⟩

/-- C2 amended: a rejected refresh grant clears the token bundle, leaves the
user unchanged, invokes the configured failure callback exactly once with no
retry (exactly one refresh-grant request is issued), and therefore leaves
`isAuthenticated` — which is derived from the user, not the bundle —
unchanged. -/
theorem C2_refresh_failure (o : Options) (now : Int) (s : AuthState)
    (b : OAuth) (h : s.oAuth = some b) :
    (refreshToken o now (.error ()) s).state.oAuth = none
      ∧ (refreshToken o now (.error ()) s).state.user = s.user
      ∧ (refreshToken o now (.error ()) s).callbackCalls
          = (if o.hasOnRefreshTokenFailed then 1 else 0)
      ∧ (refreshToken o now (.error ()) s).requests
          = [NetRequest.tokenRefresh o.clientId o.clientSecret b.refreshToken]
      ∧ isAuthenticated (refreshToken o now (.error ()) s).state = isAuthenticated s := by
  unfold refreshToken refreshTokenResume isAuthenticated
  simp [h]

/-- Witness for C2 at concrete inputs. -/
theorem C2_refresh_failure_witness :
    (refreshToken optsEx 1000 (.error ()) authedStateEx).state.oAuth = none
      ∧ (refreshToken optsEx 1000 (.error ()) authedStateEx).state.user = authedStateEx.user
      ∧ (refreshToken optsEx 1000 (.error ()) authedStateEx).callbackCalls
          = (if optsEx.hasOnRefreshTokenFailed then 1 else 0)
      ∧ (refreshToken optsEx 1000 (.error ()) authedStateEx).requests
          = [NetRequest.tokenRefresh optsEx.clientId optsEx.clientSecret
              (bundleFromResponse 0 tokenDataEx).refreshToken]
      ∧ isAuthenticated (refreshToken optsEx 1000 (.error ()) authedStateEx).state
          = isAuthenticated authedStateEx :=
  C2_refresh_failure optsEx 1000 authedStateEx (bundleFromResponse 0 tokenDataEx) rfl

/-! Claim C4. -/

/-- C4: a response error whose status is not 401, or seen with no token
bundle, or whose failing request targeted the token endpoint, is propagated
unchanged: no state change, no request, no refresh, nothing queued. -/
theorem C4_guard_propagates (o : Options) (now : Int)
    (resp : Except Unit TokenData) (err : InterceptErr) (s : AuthState)
    (h : err.status ≠ some 401 ∨ s.oAuth = none
      ∨ err.cfg.bind RequestConfig.url = some "/oauth/token") :
    handleResponseError o now resp err s
      = { state := s, requests := [], callbackCalls := 0,
          schedulerAction := none, result := .rejected err } := by
  have hg : interceptorRejectsImmediately err s = true := by
    simp only [interceptorRejectsImmediately, decide_eq_true_eq]
    rcases h with h | h | h
    · exact Or.inr (Or.inl h)
    · exact Or.inr (Or.inr (Or.inl h))
    · exact Or.inr (Or.inr (Or.inr h))
  unfold handleResponseError interceptPre
  simp [hg]

/-- Witness for C4 at a concrete input: a 500 error is propagated
unchanged. -/
theorem C4_guard_propagates_witness :
    handleResponseError optsEx 0 (.ok tokenDataEx)
        { isAxiosError := true, status := some 500,
          cfg := some { url := some "/api/a", tag := 7 } } authedStateEx
      = { state := authedStateEx, requests := [], callbackCalls := 0,
          schedulerAction := none,
          result := .rejected
            { isAxiosError := true, status := some 500,
              cfg := some { url := some "/api/a", tag := 7 } } } :=
  C4_guard_propagates optsEx 0 (.ok tokenDataEx)
    { isAxiosError := true, status := some 500,
      cfg := some { url := some "/api/a", tag := 7 } } authedStateEx
    (Or.inl (by decide))

/-! Claim C5. -/

/-- C5: every interceptor invocation settles the intercepted call by
rejecting it with the original error; a replayed request is never returned
as the resolution value (the type would allow it). -/
theorem C5_original_call_rejects (o : Options) (now : Int)
    (resp : Except Unit TokenData) (err : InterceptErr) (s : AuthState) :
    (handleResponseError o now resp err s).result = .rejected err := by
  unfold handleResponseError
  rcases hpre : interceptPre err s with ⟨s1, p⟩
  cases p <;> simp [hpre]

/-! Claim C6. -/

/-- C6: run on a present bundle, the scheduler first discards any previously
armed timer (its outcome is independent of the previous timer and the
resulting state holds at most the one new timer), uses the pre-fetch window
`preFetchInMs` when configured as an object and 60000 ms otherwise, computes
`timeoutInMs = expiresAt - now - window`, and either arms a one-shot refresh
after that delay when positive or fires the refresh immediately. -/
theorem C6_scheduler (o : Options) (now : Int) (s : AuthState) (b : OAuth)
    (h : s.oAuth = some b) :
    (∀ p, o.autoRefreshAccessToken = .obj p → refreshTokenTimeoutInMs o = p)
      ∧ (∀ bb, o.autoRefreshAccessToken = .bool bb →
          refreshTokenTimeoutInMs o = 60 * 1000)
      ∧ (o.autoRefreshAccessToken = .undef →
          refreshTokenTimeoutInMs o = 60 * 1000)
      ∧ (∀ t0, setRefreshTokenTimeout o now { s with refreshTokenTimeout := t0 }
            = setRefreshTokenTimeout o now s)
      ∧ (b.expiresAt - now - refreshTokenTimeoutInMs o > 0 →
          setRefreshTokenTimeout o now s
            = .ok
                ({ s with
                    refreshTokenTimeout := some (now + (b.expiresAt - now - refreshTokenTimeoutInMs o)) },
                  .scheduleAfter (b.expiresAt - now - refreshTokenTimeoutInMs o)))
      ∧ (¬ b.expiresAt - now - refreshTokenTimeoutInMs o > 0 →
          setRefreshTokenTimeout o now s
            = .ok ({ s with refreshTokenTimeout := none }, .refreshNow)) := by
  refine ⟨?_, ?_, ?_, ?_, ?_, ?_⟩
  · intro p hp
    simp [refreshTokenTimeoutInMs, hp]
  · intro bb hbb
    simp [refreshTokenTimeoutInMs, hbb]
  · intro hu
    simp [refreshTokenTimeoutInMs, hu]
  · intro t0
    rfl
  · intro hgt
    simp [setRefreshTokenTimeout, h, hgt]
  · intro hle
    simp [setRefreshTokenTimeout, h, hle]

/-- Witness for C6 at concrete inputs: a bundle expiring at 100000 ms seen
at time 0 with the default 60-second window is scheduled 40000 ms out,
discarding the previously armed timer. -/
theorem C6_scheduler_witness :
    ((bundleFromResponse 0 { tokenDataEx with expires_in := 100 }).expiresAt - 0
        - refreshTokenTimeoutInMs optsEx > 0)
      ∧ setRefreshTokenTimeout optsEx 0 freshStateEx
        = .ok
            ({ freshStateEx with
                refreshTokenTimeout := some (0 + ((bundleFromResponse 0 { tokenDataEx with expires_in := 100 }).expiresAt - 0 - refreshTokenTimeoutInMs optsEx)) },
              .scheduleAfter ((bundleFromResponse 0 { tokenDataEx with expires_in := 100 }).expiresAt
                - 0 - refreshTokenTimeoutInMs optsEx)) :=
  ⟨by decide,
    (C6_scheduler optsEx 0 freshStateEx
      (bundleFromResponse 0 { tokenDataEx with expires_in := 100 }) rfl).2.2.2.2.1
      (by decide)⟩

/-! Claim C7. -/

/-- C7: `refreshToken`, `revoke` and `getUser` called with no token bundle
all fail with the not-logged-in error, issue no network request, invoke no
callback and leave the state untouched. -/
theorem C7_notLoggedIn (o : Options) (now : Int)
    (respT : Except Unit TokenData) (respR : Except Unit Unit)
    (respU : Except Unit String) (s : AuthState) (h : s.oAuth = none) :
    refreshToken o now respT s
        = { result := .error .notLoggedIn, state := s, requests := [],
            callbackCalls := 0, schedulerAction := none }
      ∧ revoke o respR s
        = { result := .error .notLoggedIn, state := s, requests := [],
            callbackCalls := 0, schedulerAction := none }
      ∧ getUser o respU s
        = { result := .error .notLoggedIn, state := s, requests := [],
            callbackCalls := 0, schedulerAction := none } := by
  unfold refreshToken revoke getUser
  simp [h]

/-- Witness for C7 at concrete inputs. -/
theorem C7_notLoggedIn_witness :
    refreshToken optsEx 0 (.ok tokenDataEx) initialState
        = { result := .error .notLoggedIn, state := initialState, requests := [],
            callbackCalls := 0, schedulerAction := none }
      ∧ revoke optsEx (.ok ()) initialState
        = { result := .error .notLoggedIn, state := initialState, requests := [],
            callbackCalls := 0, schedulerAction := none }
      ∧ getUser optsEx (.ok "alice") initialState
        = { result := .error .notLoggedIn, state := initialState, requests := [],
            callbackCalls := 0, schedulerAction := none } :=
  C7_notLoggedIn optsEx 0 (.ok tokenDataEx) (.ok ()) (.ok "alice") initialState rfl

/-! Claim C8. -/

/-- C8: both on a successful sign-in and on a successful refresh, the stored
`expiresAt` equals the receipt time plus `expires_in` converted from seconds
to milliseconds. -/
theorem C8_expiresAt (o : Options) (now : Int) (email pw : String)
    (d : TokenData) (s : AuthState) (b : OAuth) (h : s.oAuth = some b) :
    ((signIn o now email pw (.ok d) s).state.oAuth).map OAuth.expiresAt
        = some (now + d.expires_in * 1000)
      ∧ ((refreshToken o now (.ok d) s).state.oAuth).map OAuth.expiresAt
        = some (now + d.expires_in * 1000) := by
  obtain ⟨_, h2⟩ := signIn_ok_state o now email pw d s
  obtain ⟨_, hr2, _⟩ := refreshTokenResume_ok_state o now d s
  constructor
  · rw [h2]
    rfl
  · unfold refreshToken
    simp [h, hr2, bundleFromResponse]

/-- Witness for C8 at concrete inputs. -/
theorem C8_expiresAt_witness :
    ((signIn optsEx 77 "a@b.test" "pw" (.ok tokenDataEx) authedStateEx).state.oAuth).map
        OAuth.expiresAt = some (77 + tokenDataEx.expires_in * 1000)
      ∧ ((refreshToken optsEx 77 (.ok tokenDataEx) authedStateEx).state.oAuth).map
        OAuth.expiresAt = some (77 + tokenDataEx.expires_in * 1000) :=
  C8_expiresAt optsEx 77 "a@b.test" "pw" tokenDataEx authedStateEx
    (bundleFromResponse 0 tokenDataEx) rfl

/-! Claim C9. -/

/-- C9: `signOut` leaves the bundle and the user absent and no timer armed,
makes `isAuthenticated` false, cannot throw (it is a total function), and is
idempotent. -/
theorem C9_signOut_idempotent (s : AuthState) :
    (signOut s).oAuth = none ∧ (signOut s).user = none
      ∧ (signOut s).refreshTokenTimeout = none
      ∧ isAuthenticated (signOut s) = false
      ∧ signOut (signOut s) = signOut s := by
  simp [signOut, isAuthenticated]

/-! Claim C10. -/

/-- C10: `signOut` leaves the pending-401 queue and the refresh-in-flight
flag untouched, and a refresh that already passed its entry check when
sign-out happened still replays the queued requests with the new token and
still clears the queue and the flag on resumption. -/
theorem C10_signOut_frame (o : Options) (now : Int) (d : TokenData)
    (s : AuthState) :
    (signOut s).failedRequestsQueue = s.failedRequestsQueue
      ∧ (signOut s).isRefreshingToken = s.isRefreshingToken
      ∧ (replayAndCleanup
          (refreshTokenResume o now (.ok d) (signOut s))).state.failedRequestsQueue = []
      ∧ (replayAndCleanup
          (refreshTokenResume o now (.ok d) (signOut s))).state.isRefreshingToken = false
      ∧ (replayAndCleanup
          (refreshTokenResume o now (.ok d) (signOut s))).requests
        = s.failedRequestsQueue.map
            (fun c => NetRequest.replay c ("Bearer " ++ d.access_token)) := by
  obtain ⟨hu, ho2, hf, hq, hr, hreq, hc⟩ :=
    refreshTokenResume_ok_state o now d (signOut s)
  refine ⟨rfl, rfl, rfl, rfl, ?_⟩
  simp only [replayAndCleanup, hr, ho2, hreq, hq]
  simp [signOut, bundleFromResponse]

/-! Claim C3. -/

/-- A refresh with a present bundle and a successful response: it resolves,
replaces the bundle, leaves queue and flag alone, and issues exactly the one
refresh-grant request. -/
theorem refreshToken_ok_parts (o : Options) (now : Int) (d : TokenData)
    (s : AuthState) (b : OAuth) (hb : s.oAuth = some b) :
    (refreshToken o now (.ok d) s).result = .ok ()
      ∧ (refreshToken o now (.ok d) s).state.oAuth = some (bundleFromResponse now d)
      ∧ (refreshToken o now (.ok d) s).state.failedRequestsQueue = s.failedRequestsQueue
      ∧ (refreshToken o now (.ok d) s).state.isRefreshingToken = s.isRefreshingToken
      ∧ (refreshToken o now (.ok d) s).requests
          = [NetRequest.tokenRefresh o.clientId o.clientSecret b.refreshToken] := by
  obtain ⟨h1, h2, h3, h4, h5, h6, h7⟩ := refreshTokenResume_ok_state o now d s
  unfold refreshToken
  simp [hb, h1, h2, h3, h4, h5, h6, h7]

/-- C3: two refreshable 401s arriving back to back while no refresh is in
flight: the second is queued without starting a refresh, exactly one
refresh-grant request is sent, the queue and the in-flight flag end cleared
for either refresh outcome, on success both originals are replayed in
arrival order with the new access token, and both original calls reject. -/
theorem C3_single_refresh_in_flight (o : Options) (now : Int)
    (resp : Except Unit TokenData) (errA errB : InterceptErr) (s : AuthState)
    (b : OAuth) (hb : s.oAuth = some b)
    (hflag : s.isRefreshingToken = false)
    (hq : s.failedRequestsQueue = [])
    (hA1 : errA.isAxiosError = true) (hA2 : errA.status = some 401)
    (hA3 : errA.cfg.bind RequestConfig.url ≠ some "/oauth/token")
    (hB1 : errB.isAxiosError = true) (hB2 : errB.status = some 401)
    (hB3 : errB.cfg.bind RequestConfig.url ≠ some "/oauth/token") :
    (handleTwo401s o now resp errA errB s).preB = .queuedOnly
      ∧ countRefreshRequests (handleTwo401s o now resp errA errB s).requests = 1
      ∧ (handleTwo401s o now resp errA errB s).state.failedRequestsQueue = []
      ∧ (handleTwo401s o now resp errA errB s).state.isRefreshingToken = false
      ∧ (∀ d, resp = .ok d →
          (handleTwo401s o now resp errA errB s).requests
            = [NetRequest.tokenRefresh o.clientId o.clientSecret b.refreshToken,
               NetRequest.replay errA.cfg ("Bearer " ++ d.access_token),
               NetRequest.replay errB.cfg ("Bearer " ++ d.access_token)])
      ∧ (handleTwo401s o now resp errA errB s).resultA = .rejected errA
      ∧ (handleTwo401s o now resp errA errB s).resultB = .rejected errB := by
  have hgA : interceptorRejectsImmediately errA s = false := by
    simp only [interceptorRejectsImmediately, decide_eq_false_iff_not]
    push_neg
    exact ⟨by simp [hA1], by simp [hA2], by simp [hb], hA3⟩
  have hpreA : interceptPre errA s
      = ({ s with failedRequestsQueue := [errA.cfg], isRefreshingToken := true },
         .willRefresh) := by
    simp [interceptPre, hgA, hflag, hq]
  have hgB : interceptorRejectsImmediately errB
      { s with failedRequestsQueue := [errA.cfg], isRefreshingToken := true } = false := by
    simp only [interceptorRejectsImmediately, decide_eq_false_iff_not]
    push_neg
    exact ⟨by simp [hB1], by simp [hB2], by simp [hb], hB3⟩
  have hpreB : interceptPre errB
      { s with failedRequestsQueue := [errA.cfg], isRefreshingToken := true }
      = ({ s with failedRequestsQueue := [errA.cfg, errB.cfg], isRefreshingToken := true },
         .queuedOnly) := by
    simp [interceptPre, hgB]
  rcases resp with u | d
  · have hrt : refreshToken o now (.error u)
        { s with failedRequestsQueue := [errA.cfg, errB.cfg], isRefreshingToken := true }
        = { result := .ok (),
            state :=
              { s with
                  oAuth := none
                  isRefreshingToken := true
                  failedRequestsQueue := [errA.cfg, errB.cfg] },
            requests := [NetRequest.tokenRefresh o.clientId o.clientSecret b.refreshToken],
            callbackCalls := if o.hasOnRefreshTokenFailed then 1 else 0,
            schedulerAction := none } := by
      unfold refreshToken refreshTokenResume
      simp [hb]
    simp only [handleTwo401s, hpreA, hpreB, refreshPhaseIf, interceptRefreshPhase,
      replayAndCleanup, hrt]
    simp [countRefreshRequests]
  · have hparts := refreshToken_ok_parts o now d
      { s with failedRequestsQueue := [errA.cfg, errB.cfg], isRefreshingToken := true } b hb
    obtain ⟨hr1, hr2, hr3, hr4, hr5⟩ := hparts
    simp only [handleTwo401s, hpreA, hpreB, refreshPhaseIf, interceptRefreshPhase,
      replayAndCleanup, hr1, hr2, hr3, hr4, hr5]
    simp [countRefreshRequests, bundleFromResponse]

/-- Witness for C3 at concrete inputs. -/
theorem C3_single_refresh_in_flight_witness :
    (handleTwo401s optsEx 0 (.ok tokenDataEx) errAEx errBEx authedStateEx).preB = .queuedOnly
      ∧ countRefreshRequests
          (handleTwo401s optsEx 0 (.ok tokenDataEx) errAEx errBEx authedStateEx).requests = 1
      ∧ (handleTwo401s optsEx 0 (.ok tokenDataEx) errAEx errBEx
          authedStateEx).state.failedRequestsQueue = []
      ∧ (handleTwo401s optsEx 0 (.ok tokenDataEx) errAEx errBEx
          authedStateEx).state.isRefreshingToken = false
      ∧ (∀ d, (.ok tokenDataEx : Except Unit TokenData) = .ok d →
          (handleTwo401s optsEx 0 (.ok tokenDataEx) errAEx errBEx authedStateEx).requests
            = [NetRequest.tokenRefresh optsEx.clientId optsEx.clientSecret
                (bundleFromResponse 0 tokenDataEx).refreshToken,
               NetRequest.replay errAEx.cfg ("Bearer " ++ d.access_token),
               NetRequest.replay errBEx.cfg ("Bearer " ++ d.access_token)])
      ∧ (handleTwo401s optsEx 0 (.ok tokenDataEx) errAEx errBEx authedStateEx).resultA
          = .rejected errAEx
      ∧ (handleTwo401s optsEx 0 (.ok tokenDataEx) errAEx errBEx authedStateEx).resultB
          = .rejected errBEx :=
  C3_single_refresh_in_flight optsEx 0 (.ok tokenDataEx) errAEx errBEx authedStateEx
    (bundleFromResponse 0 tokenDataEx) rfl rfl rfl rfl rfl (by decide) rfl rfl (by decide)
